import Mathlib

/-!
Shallow embedding of the StudySauce backend (Python, `backend/app/...`) and
verification of its specification claims.

Python dictionaries whose string keys matter to the claims are embedded as
association lists `List (String × α)`; `d[k]` is `dictGet k d` (a `none`
result corresponds to a Python `KeyError`), and `d[k] = v` is `dictSet d k v`
(insert-or-overwrite in place, preserving insertion order, as a Python dict
does).  Fallible operations return `Except String α`; the upstream HTTP
calls (Tavus video provider, Gemini) are abstracted as `Except`-valued
parameters standing for the outcome of the single attempt the source makes.
Clock reads (`datetime.now().timestamp()` / `.isoformat()`) are passed in as
already-formatted strings.
-/

namespace StudySauce

/-- Python `d[k]` / `d.get(k)` on a string-keyed dict. -/
def dictGet (k : String) (d : List (String × α)) : Option α :=
  (d.find? (fun p => p.1 == k)).map (fun p => p.2)

/-- Python `d[k] = v`: overwrite the first matching key in place, else append. -/
def dictSet (d : List (String × α)) (k : String) (v : α) : List (String × α) :=
  match d with
  | [] => [(k, v)]
  | p :: ps => if p.1 == k then (k, v) :: ps else p :: dictSet ps k v

theorem dictGet_dictSet (d : List (String × α)) (k : String) (v : α) :
    dictGet k (dictSet d k v) = some v := by
  induction d with
  | nil => simp [dictGet, dictSet, List.find?]
  | cons p ps ih =>
    by_cases h : p.1 == k
    · simp [dictGet, dictSet, h, List.find?]
    · simp only [dictSet, h, if_false]
      simpa [dictGet, List.find?, h] using ih

/-! ## Video provider client (`TavusService`) -/

/-- The JSON body of a successful `POST /videos` provider response, holding the
three keys `TavusService.create_video` reads from it. -/
structure RawVideoData where
  id : String
  video_url : String
  status : String
deriving Repr, DecidableEq

/-- `TavusService.create_video` (tavus_service.py:251-282): on a successful
provider response it returns the dict
`{"video_id": data["id"], "video_url": data["video_url"], "status": data["status"]}`;
a non-success provider status or transport failure raises, which the
`resp` parameter abstracts as `Except.error`. -/
def create_video (resp : Except String RawVideoData) :
    Except String (List (String × String)) :=
  match resp with
  | .error e => .error e
  | .ok data =>
      .ok [("video_id", data.id), ("video_url", data.video_url), ("status", data.status)]

/-! ## Assessment service (`AssessmentService`) -/

/-- A video entry appended to `assessment_videos`
(assessment_service.py:34-39 and 73-78). -/
structure VideoRef where
  id : String
  url : String
  type : String
  created_at : String
deriving Repr, DecidableEq

/-- An entry of `assessment_data`.  Checkpoint payloads are opaque to every
claim below, so `checkpoints` keeps only the entries as opaque strings. -/
structure AssessmentRecord where
  id : String
  subject : String
  grade : Int
  student_id : String
  created_at : String
  current_level : Option Int
  checkpoints : List String
  progress : Int
  assessment_videos : List VideoRef
deriving Repr, DecidableEq

/-- The in-memory `self.assessment_data` dict. -/
def AStore := List (String × AssessmentRecord)

/-- The assessment id minted at assessment_service.py:14:
`f"{student_id}_{subject}_{grade}_{datetime.now().timestamp()}"`,
with `ts` the formatted timestamp. -/
def assessmentId (student_id subject : String) (grade : Int) (ts : String) : String :=
  student_id ++ "_" ++ subject ++ "_" ++ toString grade ++ "_" ++ ts

/-- `AssessmentService.create_assessment` (assessment_service.py:10-41).
Mints the id, stores the fresh record, calls `create_video`, then reads
`video_response["id"]` and `video_response["video_url"]` to append the
`initial_assessment` entry; a missing key is a Python `KeyError`, modelled
as `Except.error`.  The record insertion happens before the video call, so
the store keeps the video-less record on the error path, as in the source. -/
def create_assessment (store : AStore) (subject : String) (grade : Int)
    (student_id : String) (ts now : String)
    (videoResp : Except String RawVideoData) :
    AStore × Except String AssessmentRecord :=
  let aid := assessmentId student_id subject grade ts
  let rec0 : AssessmentRecord :=
    { id := aid, subject := subject, grade := grade, student_id := student_id,
      created_at := now, current_level := none, checkpoints := [],
      progress := 0, assessment_videos := [] }
  let store1 := dictSet store aid rec0
  match create_video videoResp with
  | .error e => (store1, .error e)
  | .ok vr =>
      match dictGet "id" vr with
      | none => (store1, .error "KeyError: id")
      | some vid =>
          match dictGet "video_url" vr with
          | none => (store1, .error "KeyError: video_url")
          | some vurl =>
              let rec1 := { rec0 with assessment_videos :=
                rec0.assessment_videos ++ [⟨vid, vurl, "initial_assessment", now⟩] }
              (dictSet store1 aid rec1, .ok rec1)

/-! ## Claim C1 -/

/-- C1: the spec says a successful `create_assessment` returns a record whose
`assessment_videos` has exactly one `initial_assessment` entry.  In the code,
`create_video` normalizes its return to the keys `video_id`/`video_url`/`status`
(tavus_service.py:275-279), yet `create_assessment` reads
`video_response["id"]` (assessment_service.py:35): every call in which the
provider video call succeeds dies with `KeyError: id` and no record with a
video entry is ever returned — and `create_video` indeed never produces an
`"id"` key. -/
theorem create_assessment_keyerror (store : AStore) (subject : String)
    (grade : Int) (student_id : String) (ts now : String) (d : RawVideoData) :
    (create_assessment store subject grade student_id ts now (.ok d)).2 =
      .error "KeyError: id" ∧
    dictGet "id" [("video_id", d.id), ("video_url", d.video_url), ("status", d.status)]
      = none := by
  constructor
  · simp [create_assessment, create_video, dictGet, List.find?]
  · simp [dictGet, List.find?]

/-- `AssessmentService.update_assessment_level` (assessment_service.py:57-80).
An unknown id raises `ValueError("Assessment not found")` before anything is
touched; on a known id it sets `current_level`, then runs into the same
`video_response["id"]` lookup as `create_assessment`. -/
def update_assessment_level (store : AStore) (assessment_id : String)
    (level : Int) (now : String) (videoResp : Except String RawVideoData) :
    AStore × Except String AssessmentRecord :=
  match store.find? (fun p => p.1 == assessment_id) with
  | none => (store, .error "Assessment not found")
  | some pr =>
      let r1 := { pr.2 with current_level := some level }
      let store1 := dictSet store assessment_id r1
      match create_video videoResp with
      | .error e => (store1, .error e)
      | .ok vr =>
          match dictGet "id" vr with
          | none => (store1, .error "KeyError: id")
          | some vid =>
              match dictGet "video_url" vr with
              | none => (store1, .error "KeyError: video_url")
              | some vurl =>
                  let r2 := { r1 with assessment_videos :=
                    r1.assessment_videos ++ [⟨vid, vurl, "feedback", now⟩] }
                  (dictSet store1 assessment_id r2, .ok r2)

/-- The built-in subject→level→topics table of
`AssessmentService._get_topics_for_level` (assessment_service.py:191-206);
`topics.get(subject, {}).get(level, [])` yields `[]` for unknown keys. -/
def get_topics_for_level (subject : String) (level : Int) : List String :=
  if subject == "physics" then
    if level == 7 then ["Forces and Motion", "Energy", "Waves", "Electricity"]
    else if level == 8 then
      ["Newton\x27s Laws", "Work and Energy", "Sound and Light", "Magnetism"]
    else []
  else if subject == "mathematics" then
    if level == 7 then ["Algebra Basics", "Geometry", "Statistics", "Number Theory"]
    else if level == 8 then
      ["Linear Equations", "Pythagorean Theorem", "Probability", "Functions"]
    else []
  else []

/-- One entry of the roadmap `next_steps` list (assessment_service.py:152-161). -/
structure RoadmapStep where
  level : Int
  topics : List String
  estimated_time : String
deriving Repr, DecidableEq

/-- The roadmap video sub-dict (assessment_service.py:163-167). -/
structure RoadmapVideo where
  id : String
  url : String
  created_at : String
deriving Repr, DecidableEq

/-- The dict returned by `get_roadmap` (assessment_service.py:149-168). -/
structure Roadmap where
  current_level : Int
  next_steps : List RoadmapStep
  video : RoadmapVideo
deriving Repr, DecidableEq

/-- The `next_steps` expression of `get_roadmap` (assessment_service.py:151-162),
verbatim: levels `current_level + 1` and `current_level + 2`, topics from the
built-in table, fixed estimated-time strings. -/
def roadmap_next_steps (subject : String) (current_level : Int) : List RoadmapStep :=
  [ { level := current_level + 1,
      topics := get_topics_for_level subject (current_level + 1),
      estimated_time := "2-3 hours" },
    { level := current_level + 2,
      topics := get_topics_for_level subject (current_level + 2),
      estimated_time := "3-4 hours" } ]

/-- `AssessmentService.get_roadmap` (assessment_service.py:132-170).
`current_level` is `assessment["current_level"] or 0` (for an integer value
this equals the value when set, `0` when `None`, and `0 or 0 = 0`); the
returned dict embeds a video reference read from `video_response["id"]` and
`video_response["video_url"]` — the former key is absent from what
`create_video` returns, a Python `KeyError`. -/
def get_roadmap (store : AStore) (assessment_id : String)
    (videoResp : Except String RawVideoData) (now : String) :
    Except String Roadmap :=
  match store.find? (fun p => p.1 == assessment_id) with
  | none => .error "Assessment not found"
  | some pr =>
      let a := pr.2
      let current_level : Int :=
        match a.current_level with
        | none => 0
        | some l => l
      match create_video videoResp with
      | .error e => .error e
      | .ok vr =>
          match dictGet "id" vr with
          | none => .error "KeyError: id"
          | some vid =>
              match dictGet "video_url" vr with
              | none => .error "KeyError: video_url"
              | some vurl =>
                  .ok { current_level := current_level,
                        next_steps := roadmap_next_steps a.subject current_level,
                        video := ⟨vid, vurl, now⟩ }

/-! ## Claim C6 -/

/-- C6: `update_assessment_level` on an id absent from the store fails with
the NotFound-kind error `Assessment not found` and returns the store
untouched — no record is mutated on the error path. -/
theorem update_assessment_level_not_found (store : AStore) (assessment_id : String)
    (level : Int) (now : String) (videoResp : Except String RawVideoData)
    (h : store.find? (fun p => p.1 == assessment_id) = none) :
    update_assessment_level store assessment_id level now videoResp =
      (store, .error "Assessment not found") := by
  simp [update_assessment_level, h]

/-- Witness for C6 at a concrete store that holds one record under a
different key. -/
theorem update_assessment_level_not_found_witness :
    update_assessment_level
      [("k1", { id := "k1", subject := "physics", grade := 7, student_id := "s1",
                created_at := "t0", current_level := some 3, checkpoints := [],
                progress := 0, assessment_videos := [] })]
      "missing" 5 "t1" (.ok ⟨"v1", "u1", "ready"⟩) =
      ([("k1", { id := "k1", subject := "physics", grade := 7, student_id := "s1",
                 created_at := "t0", current_level := some 3, checkpoints := [],
                 progress := 0, assessment_videos := [] })],
       .error "Assessment not found") :=
  update_assessment_level_not_found _ "missing" 5 "t1" _ (by decide)

/-! ## Claim C5 -/

/-- A concrete store holding one physics assessment at `current_level = 7`,
used to evaluate `get_roadmap` on the configuration claim C5 describes. -/
def physicsLevel7Store : AStore :=
  [("a1", { id := "a1", subject := "physics", grade := 7, student_id := "s1",
            created_at := "t0", current_level := some 7, checkpoints := [],
            progress := 0, assessment_videos := [] })]

/-- C5: the spec says `get_roadmap` on a physics assessment at level 7 returns
a roadmap proposing levels 8 and 9 with the stated topic lists.  The
`next_steps` computation does produce exactly that (second and third
conjuncts, including the empty list for the unknown level 9), but the code
never returns the roadmap: building the embedded video reference reads
`video_response["id"]`, a key `create_video` does not return
(assessment_service.py:164 vs tavus_service.py:275-279), so the call dies
with `KeyError: id` (first conjunct). -/
theorem get_roadmap_physics_level7 :
    get_roadmap physicsLevel7Store "a1" (.ok ⟨"v1", "u1", "ready"⟩) "t1" =
      .error "KeyError: id" ∧
    (roadmap_next_steps "physics" 7).map (fun s => s.level) = [8, 9] ∧
    get_topics_for_level "physics" 8 =
      ["Newton\x27s Laws", "Work and Energy", "Sound and Light", "Magnetism"] ∧
    get_topics_for_level "physics" 9 = [] := by
  refine ⟨?_, by decide, by decide, by decide⟩
  simp [get_roadmap, physicsLevel7Store, create_video, dictGet, List.find?]

/-! ## Claim C8 -/

theorem string_append_left_cancel {a b c : String} (h : a ++ b = a ++ c) : b = c := by
  have hd := congrArg String.data h
  simp only [String.data_append] at hd
  exact String.ext (List.append_cancel_left hd)

/-- C8 counterexample: two `create_assessment` calls with identical student id,
subject, grade and the same process-clock tick (both format the timestamp as
`"100.0"`) mint the same assessment id, so the second call overwrites the
first record and the store holds one entry, not two — the generated ids are
not distinct. -/
theorem create_assessment_same_tick_collision :
    ((create_assessment
        (create_assessment [] "physics" 7 "s1" "100.0" "t0"
          (.ok ⟨"v1", "u1", "ready"⟩)).1
        "physics" 7 "s1" "100.0" "t1" (.ok ⟨"v2", "u2", "ready"⟩)).1).length = 1 ∧
    assessmentId "s1" "physics" 7 "100.0" = "s1_physics_7_100.0" := by
  constructor
  · rfl
  · rfl

/-- C8 amended: two `create_assessment` calls with identical student id,
subject and grade generate distinct assessment ids whenever their formatted
creation timestamps differ; in the same clock tick the ids coincide and the
second call overwrites the first. -/
theorem assessmentId_distinct_of_ts_ne (student_id subject : String) (grade : Int)
    (ts1 ts2 : String) (h : ts1 ≠ ts2) :
    assessmentId student_id subject grade ts1 ≠ assessmentId student_id subject grade ts2 := by
  intro heq
  apply h
  unfold assessmentId at heq
  exact string_append_left_cancel heq

/-- Witness for the amended C8 at two concrete ticks. -/
theorem assessmentId_distinct_of_ts_ne_witness :
    assessmentId "s1" "physics" 7 "100.0" ≠ assessmentId "s1" "physics" 7 "100.5" :=
  assessmentId_distinct_of_ts_ne "s1" "physics" 7 "100.0" "100.5" (by decide)

/-! ## Conversation endpoints of the video provider client -/

/-- One conversation dict of the provider list response; only
`conversation_id` is read by the operations under claim. -/
structure TavusConv where
  conversation_id : String
deriving Repr, DecidableEq

/-- The body of a successful `GET /conversations` response: a JSON object
whose fields the two readers below access under different keys. -/
def ListResp := List (String × List TavusConv)

/-- Outcome of `TavusService.create_conversation`: the conversation obtained
(or the failure) and whether a `POST /conversations` request was issued. -/
structure CreateConvOutcome where
  result : Except String TavusConv
  create_requested : Bool
deriving Repr

/-- `TavusService.create_conversation` (tavus_service.py:60-127), restricted to
its control flow over the list response: it first calls `list_conversations`;
if `existing_conversations.get("conversations")` is truthy (key present and
list non-empty) it returns the first — per the source comment, most recent —
conversation without posting a create request; otherwise it posts the create
request, whose outcome `createResp` abstracts (on a non-success status the
source additionally attempts `delete_all_conversations` as cleanup and then
raises). -/
def tavus_create_conversation (listResp : ListResp)
    (createResp : Except String TavusConv) : CreateConvOutcome :=
  match dictGet "conversations" listResp with
  | some (c :: _) => { result := .ok c, create_requested := false }
  | _ =>
      match createResp with
      | .ok c => { result := .ok c, create_requested := true }
      | .error e =>
          { result := .error ("Failed to create conversation: " ++ e),
            create_requested := true }

/-- One entry of the `deletion_results` list built by
`delete_all_conversations` (tavus_service.py:211-222): either
`{"conversation_id", "status": "deleted", "result": ...}` or
`{"conversation_id", "status": "failed", "error": str(e)}`. -/
structure DeletionEntry where
  conversation_id : String
  status : String
  error : Option String
deriving Repr, DecidableEq

/-- The dict returned by `delete_all_conversations` (tavus_service.py:224-227). -/
structure DeleteAllResult where
  total_conversations : Nat
  deletion_results : List DeletionEntry
deriving Repr, DecidableEq

/-- The body of the per-conversation loop of `delete_all_conversations`
(tavus_service.py:207-222): one DELETE attempt inside try/except, recorded as
`deleted` or as `failed` carrying `str(e)`. -/
def deletion_entry (del : String → Except String Unit) (c : TavusConv) :
    DeletionEntry :=
  match del c.conversation_id with
  | .ok _ => { conversation_id := c.conversation_id, status := "deleted",
               error := none }
  | .error e => { conversation_id := c.conversation_id, status := "failed",
                  error := some e }

/-- `TavusService.delete_all_conversations` (tavus_service.py:194-230): reads
`response.get("data", [])` from the list response, then attempts
`delete_conversation` on each entry inside a per-entry try/except, recording
`deleted` or `failed`-with-reason and never aborting the batch; `del`
abstracts the outcome of the single DELETE attempt per conversation id. -/
def delete_all_conversations (listResp : ListResp)
    (del : String → Except String Unit) : DeleteAllResult :=
  let conversations := (dictGet "data" listResp).getD []
  { total_conversations := conversations.length,
    deletion_results := conversations.map (deletion_entry del) }

/-- Whether the single DELETE attempt for a conversation fails. -/
def delFails (del : String → Except String Unit) (c : TavusConv) : Bool :=
  match del c.conversation_id with
  | .ok _ => false
  | .error _ => true

/-! ## Claim C3 -/

/-- C3: when the preceding `list_conversations` call returns a non-empty list
under the key `conversations`, `create_conversation` returns its first (most
recent) entry and issues no create request to the provider, whatever the
create outcome would have been. -/
theorem create_conversation_reuses_existing (listResp : ListResp)
    (c : TavusConv) (cs : List TavusConv)
    (createResp : Except String TavusConv)
    (h : dictGet "conversations" listResp = some (c :: cs)) :
    tavus_create_conversation listResp createResp =
      { result := .ok c, create_requested := false } := by
  simp [tavus_create_conversation, h]

/-- Witness for C3 at a concrete two-conversation list response. -/
theorem create_conversation_reuses_existing_witness :
    tavus_create_conversation [("conversations", [⟨"c9"⟩, ⟨"c3"⟩])]
      (.ok ⟨"fresh"⟩) =
      { result := .ok ⟨"c9"⟩, create_requested := false } :=
  create_conversation_reuses_existing _ ⟨"c9"⟩ [⟨"c3"⟩] _ (by decide)

/-! ## Claim C10 -/

/-- C10: the reuse check of `create_conversation` reads the key
`conversations` while `delete_all_conversations` reads the key `data`
(defaulting to `[]`); on a list response that stores its conversations under
`conversations` only, the batch delete reports zero conversations and deletes
nothing even though the reuse check sees a non-empty list. -/
theorem delete_all_reads_data_key (listResp : ListResp)
    (c : TavusConv) (cs : List TavusConv)
    (createResp : Except String TavusConv) (del : String → Except String Unit)
    (hconv : dictGet "conversations" listResp = some (c :: cs))
    (hdata : dictGet "data" listResp = none) :
    delete_all_conversations listResp del =
      { total_conversations := 0, deletion_results := [] } ∧
    tavus_create_conversation listResp createResp =
      { result := .ok c, create_requested := false } := by
  constructor
  · simp [delete_all_conversations, hdata]
  · simp [tavus_create_conversation, hconv]

/-- Witness for C10 at a concrete response holding one conversation under
`conversations` and no `data` key. -/
theorem delete_all_reads_data_key_witness :
    delete_all_conversations [("conversations", [⟨"c1"⟩])] (fun _ => .ok ()) =
      { total_conversations := 0, deletion_results := [] } ∧
    tavus_create_conversation [("conversations", [⟨"c1"⟩])] (.ok ⟨"fresh"⟩) =
      { result := .ok ⟨"c1"⟩, create_requested := false } :=
  delete_all_reads_data_key _ ⟨"c1"⟩ [] _ _ (by decide) (by decide)

/-! ## Claim C4 -/

theorem countP_not_eq_length_sub (p : α → Bool) (l : List α) :
    l.countP (fun a => !p a) = l.length - l.countP p := by
  induction l with
  | nil => simp
  | cons x xs ih =>
    have hle : xs.countP p ≤ xs.length := List.countP_le_length p
    cases h : p x
    · simp [List.countP_cons, h, ih]
      omega
    · simp [List.countP_cons, h, ih]

theorem deletion_entry_failed_iff (del : String → Except String Unit)
    (c : TavusConv) : ((deletion_entry del c).status == "failed") = delFails del c := by
  cases h : del c.conversation_id <;> simp [deletion_entry, delFails, h]

theorem deletion_entry_deleted_iff (del : String → Except String Unit)
    (c : TavusConv) :
    ((deletion_entry del c).status == "deleted") = !delFails del c := by
  cases h : del c.conversation_id <;> simp [deletion_entry, delFails, h]

/-- C4: `delete_all_conversations` over a list response holding N
conversations under `data`, of which those failing `del` fail to delete,
never aborts: it reports `total_conversations = N`, a results list of length
N with exactly M = (number of failing conversations) entries of status
`failed` — each carrying the failure reason — and N − M entries of status
`deleted`; the failed count is invariant under any permutation of the
conversation list. -/
theorem delete_all_conversations_reports_all (convs : List TavusConv)
    (del : String → Except String Unit) :
    (delete_all_conversations [("data", convs)] del).total_conversations
        = convs.length ∧
    (delete_all_conversations [("data", convs)] del).deletion_results.length
        = convs.length ∧
    (delete_all_conversations [("data", convs)] del).deletion_results.countP
        (fun e => e.status == "failed") = convs.countP (delFails del) ∧
    (delete_all_conversations [("data", convs)] del).deletion_results.countP
        (fun e => e.status == "deleted")
        = convs.length - convs.countP (delFails del) ∧
    (∀ e ∈ (delete_all_conversations [("data", convs)] del).deletion_results,
        e.status = "failed" →
        ∃ m, del e.conversation_id = .error m ∧ e.error = some m) ∧
    (∀ convs2 : List TavusConv, convs.Perm convs2 →
        (delete_all_conversations [("data", convs2)] del).deletion_results.countP
            (fun e => e.status == "failed")
          = (delete_all_conversations [("data", convs)] del).deletion_results.countP
            (fun e => e.status == "failed")) := by
  have hres : ∀ cs : List TavusConv,
      delete_all_conversations [("data", cs)] del =
        { total_conversations := cs.length,
          deletion_results := cs.map (deletion_entry del) } := by
    intro cs
    simp [delete_all_conversations, dictGet, List.find?]
  have hfail : ∀ cs : List TavusConv,
      (cs.map (deletion_entry del)).countP (fun e => e.status == "failed")
        = cs.countP (delFails del) := by
    intro cs
    rw [List.countP_map]
    exact List.countP_congr (fun c _ => by
      simp only [Function.comp_apply]
      rw [deletion_entry_failed_iff])
  refine ⟨by rw [hres], by rw [hres]; simp, ?_, ?_, ?_, ?_⟩
  · rw [hres]
    exact hfail convs
  · rw [hres]
    simp only
    rw [List.countP_map,
        List.countP_congr (fun c _ => by
          simp only [Function.comp_apply]
          rw [deletion_entry_deleted_iff]),
        countP_not_eq_length_sub]
  · rw [hres]
    intro e he hst
    rcases List.mem_map.mp he with ⟨c, _, rfl⟩
    cases h : del c.conversation_id with
    | ok _ => simp [deletion_entry, h] at hst
    | error m =>
        refine ⟨m, ?_, by simp [deletion_entry, h]⟩
        simp [deletion_entry, h]
  · intro convs2 hperm
    rw [hres, hres]
    simp only
    rw [hfail, hfail]
    exact (hperm.countP_eq (delFails del)).symm

/-- Witness for C4: three conversations of which exactly the middle one fails
to delete, and a reversal of the same list. -/
theorem delete_all_conversations_reports_all_witness :
    (delete_all_conversations [("data", [⟨"a"⟩, ⟨"b"⟩, ⟨"c"⟩])]
        (fun s => if s == "b" then .error "boom" else .ok ())).total_conversations
      = 3 ∧
    (delete_all_conversations [("data", [⟨"c"⟩, ⟨"b"⟩, ⟨"a"⟩])]
        (fun s => if s == "b" then .error "boom" else .ok ())).deletion_results.countP
        (fun e => e.status == "failed")
      = (delete_all_conversations [("data", [⟨"a"⟩, ⟨"b"⟩, ⟨"c"⟩])]
          (fun s => if s == "b" then .error "boom" else .ok ())).deletion_results.countP
        (fun e => e.status == "failed") := by
  constructor
  · exact (delete_all_conversations_reports_all _ _).1
  · exact (delete_all_conversations_reports_all _ _).2.2.2.2.2 _ (by decide)

/-! ## Chat service (`ChatService`) -/

/-- One topic of a Gemini teaching plan (chat_service.py:158-165);
`end_conversation` reads its `name` and `script`. -/
structure Topic where
  name : String
  priority : Int
  objectives : List String
  script : String
deriving Repr, DecidableEq

/-- The teaching plan structure requested from Gemini (chat_service.py:155-166). -/
structure TeachingPlan where
  understanding_level : String
  topics : List Topic
deriving Repr, DecidableEq

/-- One entry of the `videos` list built by `end_conversation`
(chat_service.py:122-126). -/
structure TopicVideo where
  topic : String
  video_url : String
  status : String
deriving Repr, DecidableEq

/-- An entry of `self.conversations` as stored by `start_conversation`
(chat_service.py:73-80). -/
structure ConversationRecord where
  subject : String
  grade : String
  status : String
  transcription : List String
  teaching_plan : Option TeachingPlan
  videos : List TopicVideo
deriving Repr, DecidableEq

/-- The in-memory `self.conversations` dict. -/
def CStore := List (String × ConversationRecord)

/-- The dict returned by `end_conversation` (chat_service.py:133-137). -/
structure EndResult where
  status : String
  teaching_plan : TeachingPlan
  videos : List TopicVideo
deriving Repr, DecidableEq

/-- Python keyword-argument dispatch onto `TavusService.create_video`, whose
parameters are exactly `script` and `avatar_id` (tavus_service.py:251): a
call supplying any other keyword raises
`TypeError: got an unexpected keyword argument` before the body runs; with
both expected keywords bound, the body runs and `resp` abstracts the
provider call as in `create_video`. -/
def create_video_kwargs (kwargs : List (String × String))
    (resp : Except String RawVideoData) :
    Except String (List (String × String)) :=
  if kwargs.all (fun p => p.1 == "script" || p.1 == "avatar_id") then
    match dictGet "script" kwargs, dictGet "avatar_id" kwargs with
    | some _, some _ => create_video resp
    | _, _ => .error "TypeError: create_video missing required argument"
  else .error "TypeError: create_video got an unexpected keyword argument"

/-- The per-topic loop of `end_conversation` (chat_service.py:116-126): for
each topic it invokes `create_video(script=topic["script"],
replica_id=os.getenv("TAVUS_REPLICA_ID"))` — `replica_id` is not a parameter
of `create_video` — and then reads `video["hosted_url"]` and
`video["status"]` from the normalized return. -/
def end_conversation_videos (topics : List Topic) (replica_id : String)
    (videoResp : Topic → Except String RawVideoData) :
    Except String (List TopicVideo) :=
  match topics with
  | [] => .ok []
  | t :: ts =>
      match create_video_kwargs [("script", t.script), ("replica_id", replica_id)]
          (videoResp t) with
      | .error e => .error e
      | .ok video =>
          match dictGet "hosted_url" video with
          | none => .error "KeyError: hosted_url"
          | some u =>
              match dictGet "status" video with
              | none => .error "KeyError: status"
              | some st =>
                  match end_conversation_videos ts replica_id videoResp with
                  | .error e => .error e
                  | .ok rest => .ok ({ topic := t.name, video_url := u,
                                       status := st } :: rest)

/-- `ChatService.end_conversation` (chat_service.py:96-137): NotFound on an
unknown id; then the provider end call (`endResp`), the Gemini plan
generation (`planResp`), the per-topic video loop, and only then the local
record update to `completed` with plan and videos stored. -/
def end_conversation (convs : CStore) (conversation_id : String)
    (endResp : Except String Unit) (planResp : Except String TeachingPlan)
    (replica_id : String) (videoResp : Topic → Except String RawVideoData) :
    CStore × Except String EndResult :=
  match convs.find? (fun p => p.1 == conversation_id) with
  | none => (convs, .error ("Conversation " ++ conversation_id ++ " not found"))
  | some pr =>
      match endResp with
      | .error e => (convs, .error e)
      | .ok _ =>
          match planResp with
          | .error e => (convs, .error e)
          | .ok teaching_plan =>
              match end_conversation_videos teaching_plan.topics replica_id videoResp with
              | .error e => (convs, .error e)
              | .ok videos =>
                  let cd1 := { pr.2 with
                               status := "completed",
                               teaching_plan := some teaching_plan,
                               videos := videos }
                  (dictSet convs conversation_id cd1,
                   .ok { status := "completed", teaching_plan := teaching_plan,
                         videos := videos })

/-! ## Claim C2 -/

/-- C2: the spec says that for a known active conversation, with the provider
end call, plan generation and all per-topic video creations succeeding,
`end_conversation` records `{topic, video url, status}` per topic, marks the
record completed and returns `{status: completed, teaching_plan, videos}`.
The code cannot do this for any plan with at least one topic: it invokes
`create_video` with the keyword `replica_id`, which is not a parameter of
`create_video` (chat_service.py:118-121 vs tavus_service.py:251), so the call
raises a TypeError before any video is created (first conjunct, store left
unchanged with the record still `active`); and even past that, the loop reads
`video["hosted_url"]`, a key `create_video` never returns (second
conjunct). -/
theorem end_conversation_topic_video_bug :
    end_conversation
        [("c1", { subject := "physics", grade := "7", status := "active",
                  transcription := ["hi"], teaching_plan := none, videos := [] })]
        "c1" (.ok ()) (.ok { understanding_level := "beginner",
                             topics := [{ name := "Forces", priority := 1,
                                          objectives := ["o1"], script := "sc1" }] })
        "rep1" (fun _ => .ok ⟨"v1", "u1", "ready"⟩) =
      ([("c1", { subject := "physics", grade := "7", status := "active",
                 transcription := ["hi"], teaching_plan := none, videos := [] })],
       .error "TypeError: create_video got an unexpected keyword argument") ∧
    dictGet "hosted_url" [("video_id", "v1"), ("video_url", "u1"), ("status", "ready")]
      = none := by
  constructor
  · rfl
  · rfl

/-! ## Knowledge base service (`KnowledgeBaseService`) -/

/-- The nested subject → grade-string → entry dict held in
`self.knowledge_base`; the entry payload (`Dict[str, Any]`) is opaque to the
claims and kept polymorphic. -/
def KB (α : Type) := List (String × List (String × α))

/-- Python `subject.lower()`, character-wise lowercasing of the string. -/
def strLower (s : String) : String := ⟨s.data.map Char.toLower⟩

/-- `KnowledgeBaseService.add_subject_knowledge` (knowledge_base_service.py:86-97):
lowercases the subject, materializes the inner dict if absent, writes the
entry under `str(grade)`, then persists the document (persistence is outside
the in-memory state modelled here). -/
def add_subject_knowledge (kb : KB α) (subject : String) (grade : Int)
    (knowledge : α) : KB α :=
  let s := strLower subject
  let subjMap := (dictGet s kb).getD []
  dictSet kb s (dictSet subjMap (toString grade) knowledge)

/-- `KnowledgeBaseService.get_subject_knowledge` (knowledge_base_service.py:72-84):
lowercases the subject, fails with NotFound when the subject or the grade
within the subject is absent, else returns the stored entry. -/
def get_subject_knowledge (kb : KB α) (subject : String) (grade : Int) :
    Except String α :=
  let s := strLower subject
  match dictGet s kb with
  | none => .error ("Subject " ++ s ++ " not found in knowledge base")
  | some m =>
      match dictGet (toString grade) m with
      | none => .error ("Grade " ++ toString grade ++ " not found for subject " ++ s)
      | some e => .ok e

/-! ## Claim C9 -/

/-- C9: `add_subject_knowledge` followed by `get_subject_knowledge` for the
same grade and any casing variant of the subject (same lowercasing) succeeds
and returns exactly the entry written — the subject key is case-insensitive. -/
theorem knowledge_roundtrip (kb : KB α) (subject subject2 : String)
    (grade : Int) (entry : α) (h : strLower subject2 = strLower subject) :
    get_subject_knowledge (add_subject_knowledge kb subject grade entry)
      subject2 grade = .ok entry := by
  simp only [get_subject_knowledge, add_subject_knowledge, h, dictGet_dictSet]

/-- Witness for C9: writing under `Physics` and reading back under `PHYSICS`
at grade 7 returns the entry written. -/
theorem knowledge_roundtrip_witness :
    get_subject_knowledge (add_subject_knowledge ([] : KB String) "Physics" 7 "e1")
      "PHYSICS" 7 = .ok "e1" :=
  knowledge_roundtrip [] "Physics" "PHYSICS" 7 "e1" (by decide)

/-! ## Claim C7 -/

/-- `ChatService.handle_transcription` (chat_service.py:215-220): appends the
text to the transcript when the conversation id is known, silently no-ops
otherwise. -/
def handle_transcription (convs : CStore) (conversation_id : String)
    (text : String) : CStore :=
  match convs.find? (fun p => p.1 == conversation_id) with
  | none => convs
  | some pr =>
      dictSet convs conversation_id
        { pr.2 with transcription := pr.2.transcription ++ [text] }

/-- Modelled from the spec: `ChatService.process_callback` is invoked by the
callback route (routes/chat.py:106) but its definition is not among the
source files; per the spec it dispatches on the event type, handles only
transcription-type events — appending to the transcript through
`handle_transcription` — and acknowledges every other event type without
error.  The transcription-event test is kept as a parameter. -/
def process_callback (isTranscriptionEvent : String → Bool) (convs : CStore)
    (conversation_id event_type payload_text : String) :
    CStore × Except String String :=
  if isTranscriptionEvent event_type then
    (handle_transcription convs conversation_id payload_text, .ok "ok")
  else (convs, .ok "ok")

/-- The `/chat/callback` route `handle_callback` (routes/chat.py:89-115):
`body.get` yields `none` for a missing field; a missing or empty
`event_type`/`conversation_id` is rejected with a 400-kind error, otherwise
the callback is forwarded to `process_callback`. -/
def handle_callback (isTranscriptionEvent : String → Bool) (convs : CStore)
    (event_type conversation_id : Option String) (payload_text : String) :
    CStore × Except String String :=
  match event_type, conversation_id with
  | some et, some cid =>
      if et == "" || cid == "" then
        (convs, .error "Event type and conversation ID are required")
      else process_callback isTranscriptionEvent convs cid et payload_text
  | _, _ => (convs, .error "Event type and conversation ID are required")

/-- C7: every callback carrying a non-empty event type and conversation id is
acknowledged without error (first conjunct, for recognized and unrecognized
event types alike); the store is modified only for transcription-type events,
through `handle_transcription` (second conjunct), and is untouched for any
other event type (third conjunct); `handle_transcription` itself appends the
text to the transcript of a known conversation (fourth conjunct). -/
theorem handle_callback_dispatch (isTranscriptionEvent : String → Bool)
    (convs : CStore) (et cid payload_text : String)
    (h1 : et ≠ "") (h2 : cid ≠ "") :
    (handle_callback isTranscriptionEvent convs (some et) (some cid)
        payload_text).2 = .ok "ok" ∧
    (isTranscriptionEvent et = true →
      (handle_callback isTranscriptionEvent convs (some et) (some cid)
          payload_text).1 = handle_transcription convs cid payload_text) ∧
    (isTranscriptionEvent et = false →
      (handle_callback isTranscriptionEvent convs (some et) (some cid)
          payload_text).1 = convs) ∧
    (∀ pr, convs.find? (fun p => p.1 == cid) = some pr →
      handle_transcription convs cid payload_text =
        dictSet convs cid
          { pr.2 with transcription := pr.2.transcription ++ [payload_text] }) := by
  have hcond : (et == "" || cid == "") = false := by
    simp [h1, h2]
  have hmain : handle_callback isTranscriptionEvent convs (some et) (some cid)
      payload_text = process_callback isTranscriptionEvent convs cid et payload_text := by
    simp [handle_callback, hcond]
  refine ⟨?_, ?_, ?_, ?_⟩
  · rw [hmain]
    unfold process_callback
    split <;> rfl
  · intro h
    rw [hmain]
    simp [process_callback, h]
  · intro h
    rw [hmain]
    simp [process_callback, h]
  · intro pr hpr
    simp [handle_transcription, hpr]

/-- Witness for C7: an unrecognized event type on a one-conversation store is
acknowledged and leaves the store unchanged; a transcription event appends. -/
theorem handle_callback_dispatch_witness :
    (handle_callback (fun e => e == "application.transcription_ready")
        [("c1", { subject := "physics", grade := "7", status := "active",
                  transcription := [], teaching_plan := none, videos := [] })]
        (some "system.replica_joined") (some "c1") "hello").2 = .ok "ok" ∧
    (handle_callback (fun e => e == "application.transcription_ready")
        [("c1", { subject := "physics", grade := "7", status := "active",
                  transcription := [], teaching_plan := none, videos := [] })]
        (some "system.replica_joined") (some "c1") "hello").1 =
      [("c1", { subject := "physics", grade := "7", status := "active",
                transcription := [], teaching_plan := none, videos := [] })] :=
  ⟨(handle_callback_dispatch _ _ _ _ _ (by decide) (by decide)).1,
   (handle_callback_dispatch _ _ _ _ _ (by decide) (by decide)).2.2.1 (by decide)⟩

end StudySauce
